import Mathlib

/-!
# Blog service (gRPC + MongoDB): the four handlers of `blog_server/server.go`

The handlers `CreateBlog`, `ReadBlog`, `UpdateBlog` and `DeleteBlog` are embedded as
state-passing functions over a `mongo.Collection`, the interface of the four driver calls
the handlers make (`InsertOne`, `FindOne` + `Decode`, `ReplaceOne`, `DeleteOne`).
A gRPC result `(*Response, error)` is an `Except codes.Code Response`: a failed call carries
no response value.  `status.Errorf(code, ...)` is kept by its code; message texts are not
modelled.
-/

set_option autoImplicit false

namespace encoding.hex

/-- The constant `hextable` of Go's `encoding/hex`. -/
def hextable : String := "0123456789abcdef"

/-- Digit `hextable[n]`; a nibble is always below 16, the fallback is never reached. -/
def digit (n : Nat) : Char := hextable.data.getD n '0'

/-- Go's `hex.EncodeToString`: every byte `v` gives `hextable[v>>4]`, `hextable[v&0x0f]`. -/
def Encode : List (Fin 256) → List Char
  | [] => []
  | v :: rest => digit (v.val >>> 4) :: digit (v.val &&& 0x0f) :: Encode rest

/-- Go's `fromHexChar`: the value of one hex digit, upper or lower case. -/
def fromHexChar (c : Char) : Option Nat :=
  if '0'.toNat ≤ c.toNat ∧ c.toNat ≤ '9'.toNat then some (c.toNat - '0'.toNat)
  else if 'a'.toNat ≤ c.toNat ∧ c.toNat ≤ 'f'.toNat then some (c.toNat - 'a'.toNat + 10)
  else if 'A'.toNat ≤ c.toNat ∧ c.toNat ≤ 'F'.toNat then some (c.toNat - 'A'.toNat + 10)
  else none

/-- Go's `hex.Decode`: pairs of digits `p q` give the byte `(a << 4) | b`; an invalid digit
or an odd length is an error (`none`). -/
def Decode : List Char → Option (List (Fin 256))
  | [] => some []
  | [_] => none
  | p :: q :: rest =>
    match fromHexChar p, fromHexChar q with
    | some a, some b =>
      match Decode rest with
      | some bs => some (⟨((a <<< 4) ||| b) % 256, Nat.mod_lt _ (by decide)⟩ :: bs)
      | none => none
    | _, _ => none

end encoding.hex

namespace primitive

/-- The driver's `primitive.ObjectID`, a `[12]byte`. -/
abbrev ObjectID := { b : List (Fin 256) // b.length = 12 }

/-- The zero value `primitive.NilObjectID`. -/
def NilObjectID : ObjectID := ⟨List.replicate 12 0, by decide⟩

/-- The method `ObjectID.IsZero`. -/
def ObjectID.IsZero (id : ObjectID) : Bool := decide (id = NilObjectID)

/-- The method `ObjectID.Hex`: the 24 lower-case hex digits of the 12 bytes. -/
def ObjectID.Hex (id : ObjectID) : String := String.mk (encoding.hex.Encode id.val)

/-- The driver's `primitive.ObjectIDFromHex`: `len(s) != 24` is `ErrInvalidHex`, then
`hex.Decode`; `none` stands for the non-nil `error`.  `len` is Go's byte length. -/
def ObjectIDFromHex (s : String) : Option ObjectID :=
  if s.utf8ByteSize ≠ 24 then none
  else
    match encoding.hex.Decode s.data with
    | some bs => if h : bs.length = 12 then some ⟨bs, h⟩ else none
    | none => none

end primitive

namespace codes

/-- The gRPC status codes the handlers return (`google.golang.org/grpc/codes`). -/
inductive Code where
  | InvalidArgument
  | NotFound
  | Internal
deriving DecidableEq, Repr

end codes

namespace blogpb

/-- Modelled from the spec: the wire-level entity Blog of §3 (message `blogpb.Blog`; the
generated package `blogpb` is not among the sources): id, author_id, title, content. -/
structure Blog where
  Id : String
  AuthodId : String
  Title : String
  Content : String
deriving DecidableEq, Repr

/-- Modelled from the spec: the getter `GetId` of the absent package `blogpb`; the id is
empty when absent (§3), so a nil message gives the empty string. -/
def Blog.GetId : Option Blog → String
  | some b => b.Id
  | none => ""

/-- Modelled from the spec: the getter `GetAuthodId` of the absent package `blogpb`, the
field author_id, empty on a nil message. -/
def Blog.GetAuthodId : Option Blog → String
  | some b => b.AuthodId
  | none => ""

/-- Modelled from the spec: the getter `GetTitle` of the absent package `blogpb`, the field
title, empty on a nil message. -/
def Blog.GetTitle : Option Blog → String
  | some b => b.Title
  | none => ""

/-- Modelled from the spec: the getter `GetContent` of the absent package `blogpb`, the
field content, empty on a nil message. -/
def Blog.GetContent : Option Blog → String
  | some b => b.Content
  | none => ""

/-- Modelled from the spec: the request of CreateBlog (§6; absent package `blogpb`).  The
blog is a pointer and may be nil; `req.GetBlog()` is this field. -/
structure CreateBlogRequest where
  Blog : Option Blog
deriving DecidableEq, Repr

/-- Modelled from the spec: the response of CreateBlog (§6; absent package `blogpb`). -/
structure CreateBlogResponse where
  Blog : Option Blog
deriving DecidableEq, Repr

/-- Modelled from the spec: the request of ReadBlog (§6; absent package `blogpb`);
`req.GetBlogId()` is this field. -/
structure ReadBlogRequest where
  BlogId : String
deriving DecidableEq, Repr

/-- Modelled from the spec: the response of ReadBlog (§6; absent package `blogpb`). -/
structure ReadBlogResponse where
  Blog : Option Blog
deriving DecidableEq, Repr

/-- Modelled from the spec: the request of UpdateBlog (§6; absent package `blogpb`);
`req.GetBlog()` is this field. -/
structure UpdateBlogRequest where
  Blog : Option Blog
deriving DecidableEq, Repr

/-- Modelled from the spec: the response of UpdateBlog (§6; absent package `blogpb`). -/
structure UpdateBlogResponse where
  Blog : Option Blog
deriving DecidableEq, Repr

/-- Modelled from the spec: the request of DeleteBlog (§6; absent package `blogpb`);
`req.GetBlogId()` is this field. -/
structure DeleteBlogRequest where
  BlogId : String
deriving DecidableEq, Repr

/-- Modelled from the spec: the response of DeleteBlog (§6; absent package `blogpb`). -/
structure DeleteBlogResponse where
  BlogId : String
deriving DecidableEq, Repr

end blogpb

/-- The struct `blogItem` of `server.go`, mapped to a document of the collection
(`_id,omitempty`, `author_id`, `content`, `title`). -/
structure blogItem where
  ID : primitive.ObjectID := primitive.NilObjectID
  AuthorID : String := ""
  Content : String := ""
  Title : String := ""
deriving DecidableEq

namespace mongo

/-- The `error` values a driver call can return: `mongo.ErrNoDocuments` is the clean
no-match outcome of a find; the other two are the store-level failures the specification
names. -/
inductive StoreError where
  | ErrNoDocuments
  | StoreUnavailable
  | StoreInternal
deriving DecidableEq, Repr

/-- The dynamically typed `InsertedID interface{}` of `mongo.InsertOneResult`: an ObjectID,
or a value of another type, on which the assertion `.(primitive.ObjectID)` fails. -/
inductive IDValue where
  | objectID (oid : primitive.ObjectID)
  | other
deriving DecidableEq

/-- The driver's `mongo.InsertOneResult`. -/
structure InsertOneResult where
  InsertedID : IDValue
deriving DecidableEq

/-- The driver's `mongo.UpdateResult` (counters only). -/
structure UpdateResult where
  MatchedCount : Nat
  ModifiedCount : Nat
  UpsertedCount : Nat
deriving DecidableEq

/-- The driver's `mongo.DeleteResult`. -/
structure DeleteResult where
  DeletedCount : Nat
deriving DecidableEq

/-- The driver's `mongo.SingleResult` as `Decode` into a `blogItem` sees it: the error of
the find (or of the decoding), or the matched document. -/
inductive SingleResult where
  | err (e : StoreError)
  | doc (d : blogItem)
deriving DecidableEq

/-- The method `SingleResult.Decode(data)`: the error, or `data` overwritten with the
matched document. -/
def SingleResult.Decode : SingleResult → blogItem → Except StoreError blogItem
  | .err e, _ => .error e
  | .doc d, _ => .ok d

/-- The four calls the handlers make on the global `collection *mongo.Collection`, as
functions of the store state `σ`.  The filter is always `bson.M{"_id": oid}` and is kept as
`oid`. -/
structure Collection (σ : Type) where
  InsertOne : σ → blogItem → Except StoreError InsertOneResult × σ
  FindOne : σ → primitive.ObjectID → SingleResult × σ
  ReplaceOne : σ → primitive.ObjectID → blogItem → Except StoreError UpdateResult × σ
  DeleteOne : σ → primitive.ObjectID → Except StoreError DeleteResult × σ

end mongo

namespace server

open codes blogpb primitive

/-- The handler `CreateBlog` (server.go 36-82). -/
def CreateBlog {σ : Type} (collection : mongo.Collection σ) (st : σ)
    (req : CreateBlogRequest) : Except Code CreateBlogResponse × σ :=
  let blog := req.Blog
  let data : blogItem :=
    { AuthorID := Blog.GetAuthodId blog, Title := Blog.GetTitle blog,
      Content := Blog.GetContent blog }
  let r := collection.InsertOne st data
  match r.1 with
  | .error _ => (.error Code.Internal, r.2)
  | .ok res =>
    match res.InsertedID with
    | .objectID oid =>
      (.ok { Blog := some { Id := oid.Hex, AuthodId := Blog.GetAuthodId blog,
                            Title := Blog.GetTitle blog, Content := Blog.GetContent blog } },
       r.2)
    | .other => (.error Code.Internal, r.2)

/-- The handler `ReadBlog` (server.go 84-118). -/
def ReadBlog {σ : Type} (collection : mongo.Collection σ) (st : σ)
    (req : ReadBlogRequest) : Except Code ReadBlogResponse × σ :=
  let blogID := req.BlogId
  match ObjectIDFromHex blogID with
  | none => (.error Code.InvalidArgument, st)
  | some oid =>
    let data : blogItem := {}
    let r := collection.FindOne st oid
    match r.1.Decode data with
    | .error _ => (.error Code.NotFound, r.2)
    | .ok data =>
      (.ok { Blog := some { Id := data.ID.Hex, AuthodId := data.AuthorID,
                            Content := data.Content, Title := data.Title } },
       r.2)

/-- The handler `UpdateBlog` (server.go 121-172). -/
def UpdateBlog {σ : Type} (collection : mongo.Collection σ) (st : σ)
    (req : UpdateBlogRequest) : Except Code UpdateBlogResponse × σ :=
  let blog := req.Blog
  match ObjectIDFromHex (Blog.GetId blog) with
  | none => (.error Code.InvalidArgument, st)
  | some oid =>
    let data : blogItem := {}
    let r := collection.FindOne st oid
    match r.1.Decode data with
    | .error _ => (.error Code.NotFound, r.2)
    | .ok data =>
      let data : blogItem :=
        { data with AuthorID := Blog.GetAuthodId blog, Content := Blog.GetContent blog,
                    Title := Blog.GetTitle blog }
      let u := collection.ReplaceOne r.2 oid data
      match u.1 with
      | .error _ => (.error Code.Internal, u.2)
      | .ok _ =>
        (.ok { Blog := some { Id := oid.Hex, AuthodId := data.AuthorID,
                              Title := data.Title, Content := data.Content } },
         u.2)

/-- The handler `DeleteBlog` (server.go 175-213). -/
def DeleteBlog {σ : Type} (collection : mongo.Collection σ) (st : σ)
    (req : DeleteBlogRequest) : Except Code DeleteBlogResponse × σ :=
  let blogID := req.BlogId
  match ObjectIDFromHex blogID with
  | none => (.error Code.Internal, st)
  | some oid =>
    let r := collection.DeleteOne st oid
    match r.1 with
    | .error _ => (.error Code.Internal, r.2)
    | .ok res =>
      if res.DeletedCount = 0 then (.error Code.NotFound, r.2)
      else (.ok { BlogId := oid.Hex }, r.2)

end server

namespace mongo

open primitive

/-- Modelled from the spec: the Stored Record of §3 without its identifier (the document
fields `author_id`, `content`, `title` of §6). -/
structure Document where
  author_id : String
  content : String
  title : String
deriving DecidableEq

/-- Modelled from the spec: the state of the document store behind the Document Store
Adapter of §4.1 (the MongoDB collection `mydb.blog`; driver and server are outside the
repository).  `docs` is the collection, keyed by the unique native identifier; `fresh` is
the sequence of identifiers the store will assign to the next inserts, left arbitrary. -/
structure Store where
  docs : ObjectID → Option Document
  fresh : Nat → ObjectID

/-- Modelled from the spec: the four primitive operations of the Document Store Adapter
(§4.1).  `insert` stores a new document under a store-assigned identifier (a `blogItem` with
a zero `ID` carries no `_id`, by `omitempty`) and fails with `StoreInternal` when the
identifier is already taken, identifiers being unique; `find_by_id` returns the document or
the not-found outcome `ErrNoDocuments`; `replace_by_id` overwrites the whole document and
reports how many documents matched (none when it is missing; the key cannot be changed);
`delete_by_id` removes the document and reports the deleted count, 0 or 1. -/
def adapter : Collection Store where
  InsertOne st data :=
    let oid := if data.ID.IsZero then st.fresh 0 else data.ID
    let fresh := if data.ID.IsZero then fun n => st.fresh (n + 1) else st.fresh
    match st.docs oid with
    | some _ => (.error .StoreInternal, { st with fresh := fresh })
    | none =>
      (.ok { InsertedID := .objectID oid },
       { docs := Function.update st.docs oid
                   (some { author_id := data.AuthorID, content := data.Content,
                           title := data.Title }),
         fresh := fresh })
  FindOne st oid :=
    match st.docs oid with
    | none => (.err .ErrNoDocuments, st)
    | some d =>
      (.doc { ID := oid, AuthorID := d.author_id, Content := d.content, Title := d.title }, st)
  ReplaceOne st oid data :=
    match st.docs oid with
    | none => (.ok { MatchedCount := 0, ModifiedCount := 0, UpsertedCount := 0 }, st)
    | some d =>
      if data.ID.IsZero ∨ data.ID = oid then
        let d1 : Document :=
          { author_id := data.AuthorID, content := data.Content, title := data.Title }
        (.ok { MatchedCount := 1, ModifiedCount := if d1 = d then 0 else 1,
               UpsertedCount := 0 },
         { st with docs := Function.update st.docs oid (some d1) })
      else (.error .StoreInternal, st)
  DeleteOne st oid :=
    match st.docs oid with
    | none => (.ok { DeletedCount := 0 }, st)
    | some _ => (.ok { DeletedCount := 1 }, { st with docs := Function.update st.docs oid none })

/-- What happens at the store when a handler makes its next call: nothing else (`quiet`), an
operation of another client is served first (`concurrent`), or the call fails with a
store-level failure (`failure`). -/
inductive Event (σ : Type) where
  | quiet
  | concurrent (op : σ → σ)
  | failure (e : StoreError)

/-- One call on a collection in its environment: the call meets the next scheduled event. -/
def Collection.meet {σ α : Type} (call : σ → Except StoreError α × σ)
    (st : σ × List (Event σ)) : Except StoreError α × (σ × List (Event σ)) :=
  match st.2 with
  | [] => ((call st.1).1, ((call st.1).2, []))
  | .quiet :: rest => ((call st.1).1, ((call st.1).2, rest))
  | .concurrent op :: rest => ((call (op st.1)).1, ((call (op st.1)).2, rest))
  | .failure e :: rest => (.error e, (st.1, rest))

/-- A collection in its environment: the state carries the schedule of events the following
calls will meet, one event per call.  Each single call stays atomic (§5). -/
def Collection.live {σ : Type} (c : Collection σ) : Collection (σ × List (Event σ)) where
  InsertOne st data := Collection.meet (fun s => c.InsertOne s data) st
  FindOne st oid :=
    match st.2 with
    | [] => ((c.FindOne st.1 oid).1, ((c.FindOne st.1 oid).2, []))
    | .quiet :: rest => ((c.FindOne st.1 oid).1, ((c.FindOne st.1 oid).2, rest))
    | .concurrent op :: rest =>
      ((c.FindOne (op st.1) oid).1, ((c.FindOne (op st.1) oid).2, rest))
    | .failure e :: rest => (.err e, (st.1, rest))
  ReplaceOne st oid data := Collection.meet (fun s => c.ReplaceOne s oid data) st
  DeleteOne st oid := Collection.meet (fun s => c.DeleteOne s oid) st

/-- A call made on a collection. -/
inductive Call where
  | InsertOne (data : blogItem)
  | FindOne (oid : ObjectID)
  | ReplaceOne (oid : ObjectID) (data : blogItem)
  | DeleteOne (oid : ObjectID)
deriving DecidableEq

/-- A collection that records every call made on it, in order. -/
def Collection.logged {σ : Type} (c : Collection σ) : Collection (σ × List Call) where
  InsertOne st data :=
    ((c.InsertOne st.1 data).1, ((c.InsertOne st.1 data).2, st.2 ++ [.InsertOne data]))
  FindOne st oid :=
    ((c.FindOne st.1 oid).1, ((c.FindOne st.1 oid).2, st.2 ++ [.FindOne oid]))
  ReplaceOne st oid data :=
    ((c.ReplaceOne st.1 oid data).1,
     ((c.ReplaceOne st.1 oid data).2, st.2 ++ [.ReplaceOne oid data]))
  DeleteOne st oid :=
    ((c.DeleteOne st.1 oid).1, ((c.DeleteOne st.1 oid).2, st.2 ++ [.DeleteOne oid]))

end mongo

namespace server

open mongo

/-- The state the document store is in after a successful insert of the given author id,
title and content. -/
def afterInsert (st : Store) (a t c : String) : Store :=
  { docs := Function.update st.docs (st.fresh 0)
              (some { author_id := a, content := c, title := t }),
    fresh := fun n => st.fresh (n + 1) }

end server

/-! ## Example states and requests -/

namespace demo

open primitive mongo blogpb

/-- Identifiers an example store assigns: a fixed 11-byte head and the insert count. -/
def ids : Nat → ObjectID := fun n =>
  ⟨[0x5f, 0x1a, 0x2b, 0x3c, 0x4d, 0x5e, 0x6f, 0x7a, 0x8b, 0x9c, 0x0d, Fin.ofNat n], rfl⟩

/-- An empty collection. -/
def empty : Store := { docs := fun _ => none, fresh := ids }

/-- The create request of `blog_client/client.go`. -/
def createReq : CreateBlogRequest :=
  { Blog := some { Id := "", AuthodId := "Apurv", Title := "My First Blog",
                   Content := "My first blog contents" } }

/-- The collection after the example create. -/
def one : Store := server.afterInsert empty "Apurv" "My First Blog" "My first blog contents"

/-- The collection after a second, identical create. -/
def two : Store := server.afterInsert one "Apurv" "My First Blog" "My first blog contents"

/-- The update request of `blog_client/client.go`, on the identifier created first. -/
def updateReq : UpdateBlogRequest :=
  { Blog := some { Id := "5f1a2b3c4d5e6f7a8b9c0d00", AuthodId := "Apurv Sawant",
                   Title := "My Second Blog", Content := "My second Blog content" } }

/-- The collection after the example update. -/
def updated : Store :=
  { docs := Function.update one.docs (ids 0)
              (some { author_id := "Apurv Sawant", content := "My second Blog content",
                      title := "My Second Blog" }),
    fresh := one.fresh }

/-- The example collection, about to fail the next call with `StoreUnavailable`. -/
def failing : Store × List (Event Store) := (one, [.failure .StoreUnavailable])

/-- The example collection, about to serve the next call and fail the one after it. -/
def failingLater : Store × List (Event Store) := (one, [.quiet, .failure .StoreInternal])

/-- The example collection while another client deletes the blog created first: its
delete is served after the next call and before the one that follows. -/
def racing : Store × List (Event Store) :=
  (one, [.quiet, .concurrent (fun s => (adapter.DeleteOne s (ids 0)).2)])

/-- The collection after the example delete. -/
def deleted : Store := { docs := Function.update one.docs (ids 0) none, fresh := one.fresh }

end demo

/-! ## The identifier codec -/

namespace encoding.hex

set_option maxRecDepth 100000 in
/-- Each nibble digit of a byte decodes to the nibble, and the two nibbles rebuild the byte. -/
theorem byte_digits : ∀ v : Fin 256,
    fromHexChar (digit (v.val >>> 4)) = some (v.val >>> 4) ∧
    fromHexChar (digit (v.val &&& 0x0f)) = some (v.val &&& 0x0f) ∧
    (((v.val >>> 4) <<< 4) ||| (v.val &&& 0x0f)) % 256 = v.val := by
  decide

set_option maxRecDepth 100000 in
/-- Hex digits are one byte long in UTF-8. -/
theorem byte_digits_size : ∀ v : Fin 256,
    (digit (v.val >>> 4)).utf8Size = 1 ∧ (digit (v.val &&& 0x0f)).utf8Size = 1 := by
  decide

/-- Decoding the hex encoding of bytes gives the bytes back. -/
theorem Decode_Encode (bs : List (Fin 256)) : Decode (Encode bs) = some bs := by
  induction bs with
  | nil => rfl
  | cons v rest ih =>
    obtain ⟨h1, h2, h3⟩ := byte_digits v
    simp only [Encode, Decode, h1, h2, ih]
    congr 2
    exact Fin.ext h3

/-- The hex encoding takes two bytes of text per byte. -/
theorem utf8Len_Encode (bs : List (Fin 256)) : String.utf8Len (Encode bs) = 2 * bs.length := by
  induction bs with
  | nil => rfl
  | cons v rest ih =>
    obtain ⟨h1, h2⟩ := byte_digits_size v
    simp only [Encode, String.utf8Len_cons, ih, h1, h2, List.length_cons]
    omega

end encoding.hex

namespace primitive

/-- Parsing the rendering of an ObjectID gives the ObjectID back. -/
theorem ObjectIDFromHex_Hex (oid : ObjectID) : ObjectIDFromHex oid.Hex = some oid := by
  have hlen : oid.Hex.utf8ByteSize = 24 := by
    simp [ObjectID.Hex, encoding.hex.utf8Len_Encode, oid.property]
  unfold ObjectIDFromHex
  rw [if_neg (by simp [hlen])]
  simp [ObjectID.Hex, encoding.hex.Decode_Encode, oid.property]

/-- Different ObjectIDs render differently. -/
theorem Hex_injective {a b : ObjectID} (h : a.Hex = b.Hex) : a = b := by
  have := ObjectIDFromHex_Hex a
  rw [h, ObjectIDFromHex_Hex] at this
  exact (Option.some.inj this).symm

end primitive

/-! ## The handlers on the document store -/

namespace server

open codes blogpb primitive mongo

/-- The handler `CreateBlog` on the document store, by whether the assigned identifier is free. -/
theorem CreateBlog_adapter (st : Store) (req : CreateBlogRequest) :
    CreateBlog adapter st req =
      match st.docs (st.fresh 0) with
      | some _ => (.error Code.Internal, { st with fresh := fun n => st.fresh (n + 1) })
      | none =>
        (.ok { Blog := some { Id := (st.fresh 0).Hex, AuthodId := Blog.GetAuthodId req.Blog,
                              Title := Blog.GetTitle req.Blog,
                              Content := Blog.GetContent req.Blog } },
         afterInsert st (Blog.GetAuthodId req.Blog) (Blog.GetTitle req.Blog)
           (Blog.GetContent req.Blog)) := by
  simp only [CreateBlog, adapter, ObjectID.IsZero, afterInsert, decide_True, if_true]
  cases h : st.docs (st.fresh 0) <;> simp

/-- What a successful `CreateBlog` on the document store returns and leaves. -/
theorem CreateBlog_adapter_ok {st st' : Store} {req : CreateBlogRequest}
    {resp : CreateBlogResponse} (h : CreateBlog adapter st req = (.ok resp, st')) :
    st.docs (st.fresh 0) = none ∧
    resp = { Blog := some { Id := (st.fresh 0).Hex, AuthodId := Blog.GetAuthodId req.Blog,
                            Title := Blog.GetTitle req.Blog,
                            Content := Blog.GetContent req.Blog } } ∧
    st' = afterInsert st (Blog.GetAuthodId req.Blog) (Blog.GetTitle req.Blog)
            (Blog.GetContent req.Blog) := by
  rw [CreateBlog_adapter] at h
  cases hd : st.docs (st.fresh 0) with
  | some d => rw [hd] at h; simp at h
  | none =>
    rw [hd] at h
    simp only [Prod.mk.injEq, Except.ok.injEq] at h
    exact ⟨rfl, h.1.symm, h.2.symm⟩

/-- The handler `ReadBlog` on the document store, for an id that parses. -/
theorem ReadBlog_adapter (st : Store) {id : String} {oid : ObjectID}
    (h : ObjectIDFromHex id = some oid) :
    ReadBlog adapter st { BlogId := id } =
      match st.docs oid with
      | none => (.error Code.NotFound, st)
      | some d =>
        (.ok { Blog := some { Id := oid.Hex, AuthodId := d.author_id, Title := d.title,
                              Content := d.content } }, st) := by
  simp only [ReadBlog, h, adapter]
  cases hd : st.docs oid <;> simp [SingleResult.Decode]

/-- The handler `UpdateBlog` on the document store, for an id that parses. -/
theorem UpdateBlog_adapter (st : Store) (req : UpdateBlogRequest) (oid : ObjectID)
    (h : ObjectIDFromHex (Blog.GetId req.Blog) = some oid) :
    UpdateBlog adapter st req =
      match st.docs oid with
      | none => (.error Code.NotFound, st)
      | some _ =>
        (.ok { Blog := some { Id := oid.Hex, AuthodId := Blog.GetAuthodId req.Blog,
                              Title := Blog.GetTitle req.Blog,
                              Content := Blog.GetContent req.Blog } },
         { st with docs := Function.update st.docs oid
                     (some { author_id := Blog.GetAuthodId req.Blog,
                             content := Blog.GetContent req.Blog,
                             title := Blog.GetTitle req.Blog }) }) := by
  simp only [UpdateBlog, h, adapter]
  cases hd : st.docs oid <;> simp [SingleResult.Decode, hd]

/-- The handler `DeleteBlog` on the document store, for an id that parses. -/
theorem DeleteBlog_adapter (st : Store) {id : String} {oid : ObjectID}
    (h : ObjectIDFromHex id = some oid) :
    DeleteBlog adapter st { BlogId := id } =
      match st.docs oid with
      | none => (.error Code.NotFound, st)
      | some _ =>
        (.ok { BlogId := oid.Hex }, { st with docs := Function.update st.docs oid none }) := by
  simp only [DeleteBlog, h, adapter]
  cases hd : st.docs oid <;> simp

/-- The record of calls is faithful: a `ReadBlog` with a well-formed id records its find. -/
theorem ReadBlog_logged_records_find {σ : Type} (collection : Collection σ) (st : σ)
    (log : List Call) (id : String) (oid : ObjectID) (h : ObjectIDFromHex id = some oid) :
    (ReadBlog collection.logged (st, log) { BlogId := id }).2.2 = log ++ [Call.FindOne oid] := by
  simp only [ReadBlog, h, Collection.logged]
  cases (collection.FindOne st oid).1.Decode {} <;> rfl

/-- `UpdateBlog` does not look at the result of `ReplaceOne`: once the find decodes and the
replace returns no error, the handler reports success with the new values, whatever the
matched count. -/
theorem UpdateBlog_ignores_matched_count {σ : Type} (collection : Collection σ) (st : σ)
    (req : UpdateBlogRequest) (oid : ObjectID) (d : blogItem) (u : UpdateResult)
    (hp : ObjectIDFromHex (Blog.GetId req.Blog) = some oid)
    (hf : (collection.FindOne st oid).1 = .doc d)
    (hr : (collection.ReplaceOne (collection.FindOne st oid).2 oid
            { ID := d.ID, AuthorID := Blog.GetAuthodId req.Blog,
              Content := Blog.GetContent req.Blog, Title := Blog.GetTitle req.Blog }).1 = .ok u) :
    (UpdateBlog collection st req).1 =
      .ok { Blog := some { Id := oid.Hex, AuthodId := Blog.GetAuthodId req.Blog,
                           Title := Blog.GetTitle req.Blog,
                           Content := Blog.GetContent req.Blog } } := by
  simp only [UpdateBlog, hp, hf, SingleResult.Decode, hr]

end server

/-! ## Claims -/

namespace server

open codes blogpb primitive mongo

/-- C1 (round trip). On the document store, whenever `CreateBlog` succeeds and returns the
id `X`, the `ReadBlog` of `X` made next, in the state `CreateBlog` left, succeeds and
returns the blog with id `X` and exactly the author id, title and content given to
`CreateBlog`. -/
theorem create_then_read_round_trip (st st' : Store) (req : CreateBlogRequest)
    (resp : CreateBlogResponse) (h : CreateBlog adapter st req = (.ok resp, st')) :
    ∃ X : String,
      resp.Blog = some { Id := X, AuthodId := Blog.GetAuthodId req.Blog,
                         Title := Blog.GetTitle req.Blog,
                         Content := Blog.GetContent req.Blog } ∧
      ReadBlog adapter st' { BlogId := X } =
        (.ok { Blog := some { Id := X, AuthodId := Blog.GetAuthodId req.Blog,
                              Title := Blog.GetTitle req.Blog,
                              Content := Blog.GetContent req.Blog } }, st') := by
  obtain ⟨_, hr, hs⟩ := CreateBlog_adapter_ok h
  subst hr hs
  refine ⟨(st.fresh 0).Hex, rfl, ?_⟩
  rw [ReadBlog_adapter _ (ObjectIDFromHex_Hex _)]
  simp [afterInsert]

/-- C1 on the example: the create of the client on the empty collection, then the read. -/
theorem create_then_read_round_trip_witness :
    CreateBlog adapter demo.empty demo.createReq =
        (.ok { Blog := some { Id := "5f1a2b3c4d5e6f7a8b9c0d00", AuthodId := "Apurv",
                              Title := "My First Blog",
                              Content := "My first blog contents" } }, demo.one) ∧
    ∃ X : String,
      (some { Id := "5f1a2b3c4d5e6f7a8b9c0d00", AuthodId := "Apurv", Title := "My First Blog",
              Content := "My first blog contents" } : Option Blog) =
        some { Id := X, AuthodId := "Apurv", Title := "My First Blog",
               Content := "My first blog contents" } ∧
      ReadBlog adapter demo.one { BlogId := X } =
        (.ok { Blog := some { Id := X, AuthodId := "Apurv", Title := "My First Blog",
                              Content := "My first blog contents" } }, demo.one) :=
  ⟨rfl, create_then_read_round_trip demo.empty demo.one demo.createReq _ rfl⟩

/-- C2 (update replaces fully). On the document store holding a record `old` under the
identifier `X`, whenever `UpdateBlog` with an id string that denotes `X` and new author id,
title and content succeeds, the `ReadBlog` of `X` made next returns the id of `X` (its
rendering `X.Hex`, which parses back to `X`) with exactly the new values, whatever `old`
was; the stored document is the new one. -/
theorem update_replaces_fully (st st' : Store) (X : ObjectID) (old : Document)
    (idU idR a t c : String) (resp : UpdateBlogResponse)
    (hold : st.docs X = some old)
    (hU : ObjectIDFromHex idU = some X) (hR : ObjectIDFromHex idR = some X)
    (h : UpdateBlog adapter st { Blog := some { Id := idU, AuthodId := a, Title := t,
                                                Content := c } } = (.ok resp, st')) :
    ReadBlog adapter st' { BlogId := idR } =
        (.ok { Blog := some { Id := X.Hex, AuthodId := a, Title := t, Content := c } }, st') ∧
    ObjectIDFromHex X.Hex = some X ∧
    st'.docs X = some { author_id := a, content := c, title := t } := by
  rw [UpdateBlog_adapter st _ X (by simpa [Blog.GetId] using hU), hold] at h
  simp only [Prod.mk.injEq, Except.ok.injEq] at h
  obtain ⟨_, hs⟩ := h
  subst hs
  rw [ReadBlog_adapter _ hR]
  simp [Blog.GetAuthodId, Blog.GetTitle, Blog.GetContent, ObjectIDFromHex_Hex]

/-- C2 on the example: the update of the client on the blog created first, read back through
an upper-case spelling of the same identifier. -/
theorem update_replaces_fully_witness :
    demo.one.docs (demo.ids 0) =
        some { author_id := "Apurv", content := "My first blog contents",
               title := "My First Blog" } ∧
    ObjectIDFromHex "5f1a2b3c4d5e6f7a8b9c0d00" = some (demo.ids 0) ∧
    ObjectIDFromHex "5F1A2B3C4D5E6F7A8B9C0D00" = some (demo.ids 0) ∧
    UpdateBlog adapter demo.one demo.updateReq =
        (.ok { Blog := some { Id := "5f1a2b3c4d5e6f7a8b9c0d00", AuthodId := "Apurv Sawant",
                              Title := "My Second Blog",
                              Content := "My second Blog content" } }, demo.updated) ∧
    (ReadBlog adapter demo.updated { BlogId := "5F1A2B3C4D5E6F7A8B9C0D00" } =
        (.ok { Blog := some { Id := (demo.ids 0).Hex, AuthodId := "Apurv Sawant",
                              Title := "My Second Blog",
                              Content := "My second Blog content" } }, demo.updated) ∧
      ObjectIDFromHex (demo.ids 0).Hex = some (demo.ids 0) ∧
      demo.updated.docs (demo.ids 0) =
        some { author_id := "Apurv Sawant", content := "My second Blog content",
               title := "My Second Blog" }) :=
  ⟨rfl, rfl, rfl, rfl,
   update_replaces_fully demo.one demo.updated (demo.ids 0) _ "5f1a2b3c4d5e6f7a8b9c0d00"
     "5F1A2B3C4D5E6F7A8B9C0D00" _ _ _ _ rfl rfl rfl rfl⟩

/-- C3 (delete is terminal). On the document store, whenever `DeleteBlog` of the id `X`
succeeds, then in the state it leaves `ReadBlog` of `X`, `UpdateBlog` with id `X` and any
field values, and a second `DeleteBlog` of `X` each fail with `NotFound`. -/
theorem delete_is_terminal (st st' : Store) (X : String) (resp : DeleteBlogResponse)
    (h : DeleteBlog adapter st { BlogId := X } = (.ok resp, st')) :
    ReadBlog adapter st' { BlogId := X } = (.error Code.NotFound, st') ∧
    (∀ a t c : String,
      UpdateBlog adapter st' { Blog := some { Id := X, AuthodId := a, Title := t,
                                              Content := c } } =
        (.error Code.NotFound, st')) ∧
    DeleteBlog adapter st' { BlogId := X } = (.error Code.NotFound, st') := by
  cases hp : ObjectIDFromHex X with
  | none => simp [DeleteBlog, hp] at h
  | some oid =>
    rw [DeleteBlog_adapter st hp] at h
    cases hd : st.docs oid with
    | none => rw [hd] at h; simp at h
    | some d =>
      rw [hd] at h
      simp only [Prod.mk.injEq, Except.ok.injEq] at h
      obtain ⟨_, hs⟩ := h
      subst hs
      refine ⟨?_, ?_, ?_⟩
      · rw [ReadBlog_adapter _ hp]; simp
      · intro a t c
        rw [UpdateBlog_adapter _ _ oid (by simpa [Blog.GetId] using hp)]; simp
      · rw [DeleteBlog_adapter _ hp]; simp

/-- C3 on the example: the blog created first is deleted. -/
theorem delete_is_terminal_witness :
    DeleteBlog adapter demo.one { BlogId := "5f1a2b3c4d5e6f7a8b9c0d00" } =
        (.ok { BlogId := "5f1a2b3c4d5e6f7a8b9c0d00" }, demo.deleted) ∧
    (ReadBlog adapter demo.deleted { BlogId := "5f1a2b3c4d5e6f7a8b9c0d00" } =
        (.error Code.NotFound, demo.deleted) ∧
      (∀ a t c : String,
        UpdateBlog adapter demo.deleted
            { Blog := some { Id := "5f1a2b3c4d5e6f7a8b9c0d00", AuthodId := a, Title := t,
                             Content := c } } =
          (.error Code.NotFound, demo.deleted)) ∧
      DeleteBlog adapter demo.deleted { BlogId := "5f1a2b3c4d5e6f7a8b9c0d00" } =
        (.error Code.NotFound, demo.deleted)) :=
  ⟨rfl, delete_is_terminal demo.one demo.deleted _ _ rfl⟩

/-- C4 (malformed identifier rejected early). For every collection, every state of it and
every id string that does not parse as an ObjectID, `ReadBlog` and `UpdateBlog` fail with
`InvalidArgument`, carry no response, and leave the store state as it was; on the
collection that records its calls the record is unchanged, so no call is made at all. -/
theorem malformed_id_rejected_early {σ : Type} (collection : Collection σ) (st : σ)
    (id : String) (h : ObjectIDFromHex id = none) :
    ReadBlog collection st { BlogId := id } = (.error Code.InvalidArgument, st) ∧
    (∀ req : UpdateBlogRequest, Blog.GetId req.Blog = id →
      UpdateBlog collection st req = (.error Code.InvalidArgument, st)) ∧
    (∀ log : List Call,
      ReadBlog collection.logged (st, log) { BlogId := id } =
        (.error Code.InvalidArgument, (st, log))) ∧
    (∀ (log : List Call) (req : UpdateBlogRequest), Blog.GetId req.Blog = id →
      UpdateBlog collection.logged (st, log) req =
        (.error Code.InvalidArgument, (st, log))) := by
  refine ⟨?_, ?_, ?_, ?_⟩
  · simp [ReadBlog, h]
  · intro req hreq; simp [UpdateBlog, hreq, h]
  · intro log; simp [ReadBlog, h]
  · intro log req hreq; simp [UpdateBlog, hreq, h]

/-- C4 on the id the client sends to provoke the error. -/
theorem malformed_id_rejected_early_witness :
    ObjectIDFromHex "sdnflsdnfkl" = none ∧
    (ReadBlog adapter demo.one { BlogId := "sdnflsdnfkl" } =
        (.error Code.InvalidArgument, demo.one) ∧
      (∀ req : UpdateBlogRequest, Blog.GetId req.Blog = "sdnflsdnfkl" →
        UpdateBlog adapter demo.one req = (.error Code.InvalidArgument, demo.one)) ∧
      (∀ log : List Call,
        ReadBlog adapter.logged (demo.one, log) { BlogId := "sdnflsdnfkl" } =
          (.error Code.InvalidArgument, (demo.one, log))) ∧
      (∀ (log : List Call) (req : UpdateBlogRequest), Blog.GetId req.Blog = "sdnflsdnfkl" →
        UpdateBlog adapter.logged (demo.one, log) req =
          (.error Code.InvalidArgument, (demo.one, log)))) :=
  ⟨rfl, malformed_id_rejected_early adapter demo.one "sdnflsdnfkl" rfl⟩

/-- C7 (DeleteBlog classifies a malformed identifier as Internal). For every collection,
every state of it and every blog id string that does not parse as an ObjectID, `DeleteBlog`
fails with `Internal`, carries no response, and leaves the store state as it was; on the
collection that records its calls the record is unchanged, so no call is made. -/
theorem delete_malformed_id_is_internal {σ : Type} (collection : Collection σ) (st : σ)
    (id : String) (h : ObjectIDFromHex id = none) :
    DeleteBlog collection st { BlogId := id } = (.error Code.Internal, st) ∧
    (∀ log : List Call,
      DeleteBlog collection.logged (st, log) { BlogId := id } =
        (.error Code.Internal, (st, log))) := by
  refine ⟨?_, ?_⟩
  · simp [DeleteBlog, h]
  · intro log; simp [DeleteBlog, h]

/-- C7 on the same malformed id. -/
theorem delete_malformed_id_is_internal_witness :
    ObjectIDFromHex "sdnflsdnfkl" = none ∧
    (DeleteBlog adapter demo.one { BlogId := "sdnflsdnfkl" } =
        (.error Code.Internal, demo.one) ∧
      (∀ log : List Call,
        DeleteBlog adapter.logged (demo.one, log) { BlogId := "sdnflsdnfkl" } =
          (.error Code.Internal, (demo.one, log)))) :=
  ⟨rfl, delete_malformed_id_is_internal adapter demo.one "sdnflsdnfkl" rfl⟩

/-- C5, as stated, fails: with the blog in the store and the store answering the find with
the store-level failure `StoreUnavailable`, `ReadBlog` fails with `NotFound`, not with
`Internal`. -/
theorem read_store_failure_is_not_found :
    ObjectIDFromHex "5f1a2b3c4d5e6f7a8b9c0d00" = some (demo.ids 0) ∧
    (adapter.live.FindOne demo.failing (demo.ids 0)).1 = .err .StoreUnavailable ∧
    (ReadBlog adapter.live demo.failing { BlogId := "5f1a2b3c4d5e6f7a8b9c0d00" }).1 =
      .error Code.NotFound ∧
    (ReadBlog adapter.live demo.failing { BlogId := "5f1a2b3c4d5e6f7a8b9c0d00" }).1 ≠
      .error Code.Internal := by
  refine ⟨rfl, rfl, rfl, ?_⟩
  rw [show (ReadBlog adapter.live demo.failing { BlogId := "5f1a2b3c4d5e6f7a8b9c0d00" }).1 =
        .error Code.NotFound from rfl]
  intro h
  cases h

/-- C5, amended. For every collection and state: `CreateBlog`, `UpdateBlog` at its replace
and `DeleteBlog` fail with `Internal` whenever their store call (insert, replace, delete)
returns an error, store-level failures included; `ReadBlog` and `UpdateBlog` fail with
`NotFound` whenever their find returns an error, a store-level failure as much as the
clean no-match outcome. -/
theorem store_failure_outcomes {σ : Type} (collection : Collection σ) (st : σ)
    (e : StoreError) :
    (∀ req : CreateBlogRequest,
      (collection.InsertOne st
          { AuthorID := Blog.GetAuthodId req.Blog, Title := Blog.GetTitle req.Blog,
            Content := Blog.GetContent req.Blog }).1 = .error e →
      (CreateBlog collection st req).1 = .error Code.Internal) ∧
    (∀ (req : ReadBlogRequest) (oid : ObjectID), ObjectIDFromHex req.BlogId = some oid →
      (collection.FindOne st oid).1 = .err e →
      (ReadBlog collection st req).1 = .error Code.NotFound) ∧
    (∀ (req : UpdateBlogRequest) (oid : ObjectID),
      ObjectIDFromHex (Blog.GetId req.Blog) = some oid →
      (collection.FindOne st oid).1 = .err e →
      (UpdateBlog collection st req).1 = .error Code.NotFound) ∧
    (∀ (req : UpdateBlogRequest) (oid : ObjectID) (d : blogItem),
      ObjectIDFromHex (Blog.GetId req.Blog) = some oid →
      (collection.FindOne st oid).1 = .doc d →
      (collection.ReplaceOne (collection.FindOne st oid).2 oid
          { ID := d.ID, AuthorID := Blog.GetAuthodId req.Blog,
            Content := Blog.GetContent req.Blog, Title := Blog.GetTitle req.Blog }).1 =
        .error e →
      (UpdateBlog collection st req).1 = .error Code.Internal) ∧
    (∀ (req : DeleteBlogRequest) (oid : ObjectID), ObjectIDFromHex req.BlogId = some oid →
      (collection.DeleteOne st oid).1 = .error e →
      (DeleteBlog collection st req).1 = .error Code.Internal) := by
  refine ⟨?_, ?_, ?_, ?_, ?_⟩
  · intro req h; simp only [CreateBlog, h]
  · intro req oid hp h; simp only [ReadBlog, hp, h, SingleResult.Decode]
  · intro req oid hp h; simp only [UpdateBlog, hp, h, SingleResult.Decode]
  · intro req oid d hp hf h; simp only [UpdateBlog, hp, hf, SingleResult.Decode, h]
  · intro req oid hp h; simp only [DeleteBlog, hp, h]

/-- C5, amended, on the example collection with a failing call: each of the five cases. -/
theorem store_failure_outcomes_witness :
    (CreateBlog adapter.live demo.failing demo.createReq).1 = .error Code.Internal ∧
    (ReadBlog adapter.live demo.failing { BlogId := "5f1a2b3c4d5e6f7a8b9c0d00" }).1 =
      .error Code.NotFound ∧
    (UpdateBlog adapter.live demo.failing demo.updateReq).1 = .error Code.NotFound ∧
    (UpdateBlog adapter.live demo.failingLater demo.updateReq).1 = .error Code.Internal ∧
    (DeleteBlog adapter.live demo.failing { BlogId := "5f1a2b3c4d5e6f7a8b9c0d00" }).1 =
      .error Code.Internal :=
  ⟨(store_failure_outcomes adapter.live demo.failing .StoreUnavailable).1 demo.createReq rfl,
   (store_failure_outcomes adapter.live demo.failing .StoreUnavailable).2.1
     { BlogId := "5f1a2b3c4d5e6f7a8b9c0d00" } (demo.ids 0) rfl rfl,
   (store_failure_outcomes adapter.live demo.failing .StoreUnavailable).2.2.1
     demo.updateReq (demo.ids 0) rfl rfl,
   (store_failure_outcomes adapter.live demo.failingLater .StoreInternal).2.2.2.1
     demo.updateReq (demo.ids 0)
     { ID := demo.ids 0, AuthorID := "Apurv", Content := "My first blog contents",
       Title := "My First Blog" } rfl rfl rfl,
   (store_failure_outcomes adapter.live demo.failing .StoreUnavailable).2.2.2.2
     { BlogId := "5f1a2b3c4d5e6f7a8b9c0d00" } (demo.ids 0) rfl rfl⟩

/-- C6 at the failing input: the store holds the blog created first, another client deletes
it between the find and the replace of `UpdateBlog`.  The find returns the record, the
replace matches no document and returns no error, `UpdateBlog` reports success with the new
values, and the store holds no record under the identifier. -/
theorem update_succeeds_on_deleted_record :
    (adapter.live.FindOne demo.racing (demo.ids 0)).1 =
      .doc { ID := demo.ids 0, AuthorID := "Apurv", Content := "My first blog contents",
             Title := "My First Blog" } ∧
    (adapter.live.ReplaceOne (adapter.live.FindOne demo.racing (demo.ids 0)).2 (demo.ids 0)
        { ID := demo.ids 0, AuthorID := "Apurv Sawant", Content := "My second Blog content",
          Title := "My Second Blog" }).1 =
      .ok { MatchedCount := 0, ModifiedCount := 0, UpsertedCount := 0 } ∧
    (UpdateBlog adapter.live demo.racing demo.updateReq).1 =
      .ok { Blog := some { Id := "5f1a2b3c4d5e6f7a8b9c0d00", AuthodId := "Apurv Sawant",
                           Title := "My Second Blog",
                           Content := "My second Blog content" } } ∧
    (UpdateBlog adapter.live demo.racing demo.updateReq).2.1.docs (demo.ids 0) = none :=
  ⟨rfl, rfl, rfl, rfl⟩

/-- C8 (identifier uniqueness). On the document store, two successful `CreateBlog` calls
made one after the other with the same request return different id strings, and in the
state after the second call both ids read back the field values of the request. -/
theorem create_twice_distinct_ids (st s1 s2 : Store) (req : CreateBlogRequest)
    (r1 r2 : CreateBlogResponse)
    (h1 : CreateBlog adapter st req = (.ok r1, s1))
    (h2 : CreateBlog adapter s1 req = (.ok r2, s2)) :
    ∃ X1 X2 : String,
      r1.Blog = some { Id := X1, AuthodId := Blog.GetAuthodId req.Blog,
                       Title := Blog.GetTitle req.Blog,
                       Content := Blog.GetContent req.Blog } ∧
      r2.Blog = some { Id := X2, AuthodId := Blog.GetAuthodId req.Blog,
                       Title := Blog.GetTitle req.Blog,
                       Content := Blog.GetContent req.Blog } ∧
      X1 ≠ X2 ∧
      ReadBlog adapter s2 { BlogId := X1 } =
        (.ok { Blog := some { Id := X1, AuthodId := Blog.GetAuthodId req.Blog,
                              Title := Blog.GetTitle req.Blog,
                              Content := Blog.GetContent req.Blog } }, s2) ∧
      ReadBlog adapter s2 { BlogId := X2 } =
        (.ok { Blog := some { Id := X2, AuthodId := Blog.GetAuthodId req.Blog,
                              Title := Blog.GetTitle req.Blog,
                              Content := Blog.GetContent req.Blog } }, s2) := by
  obtain ⟨_, hr1, hs1⟩ := CreateBlog_adapter_ok h1
  obtain ⟨hd2, hr2, hs2⟩ := CreateBlog_adapter_ok h2
  subst hr1 hs1 hr2 hs2
  have hne : st.fresh 1 ≠ st.fresh 0 := by
    intro heq
    simp [afterInsert, heq] at hd2
  refine ⟨(st.fresh 0).Hex, (st.fresh 1).Hex, rfl, rfl, ?_, ?_, ?_⟩
  · intro h
    exact hne (Hex_injective h).symm
  · rw [ReadBlog_adapter _ (ObjectIDFromHex_Hex _)]
    simp [afterInsert, Function.update_noteq hne.symm]
  · rw [ReadBlog_adapter _ (ObjectIDFromHex_Hex _)]
    simp [afterInsert]

/-- C8 on the example: the create of the client made twice on the empty collection. -/
theorem create_twice_distinct_ids_witness :
    CreateBlog adapter demo.empty demo.createReq =
        (.ok { Blog := some { Id := "5f1a2b3c4d5e6f7a8b9c0d00", AuthodId := "Apurv",
                              Title := "My First Blog",
                              Content := "My first blog contents" } }, demo.one) ∧
    CreateBlog adapter demo.one demo.createReq =
        (.ok { Blog := some { Id := "5f1a2b3c4d5e6f7a8b9c0d01", AuthodId := "Apurv",
                              Title := "My First Blog",
                              Content := "My first blog contents" } }, demo.two) ∧
    ∃ X1 X2 : String,
      (some { Id := "5f1a2b3c4d5e6f7a8b9c0d00", AuthodId := "Apurv", Title := "My First Blog",
              Content := "My first blog contents" } : Option Blog) =
        some { Id := X1, AuthodId := "Apurv", Title := "My First Blog",
               Content := "My first blog contents" } ∧
      (some { Id := "5f1a2b3c4d5e6f7a8b9c0d01", AuthodId := "Apurv", Title := "My First Blog",
              Content := "My first blog contents" } : Option Blog) =
        some { Id := X2, AuthodId := "Apurv", Title := "My First Blog",
               Content := "My first blog contents" } ∧
      X1 ≠ X2 ∧
      ReadBlog adapter demo.two { BlogId := X1 } =
        (.ok { Blog := some { Id := X1, AuthodId := "Apurv", Title := "My First Blog",
                              Content := "My first blog contents" } }, demo.two) ∧
      ReadBlog adapter demo.two { BlogId := X2 } =
        (.ok { Blog := some { Id := X2, AuthodId := "Apurv", Title := "My First Blog",
                              Content := "My first blog contents" } }, demo.two) :=
  ⟨rfl, rfl, create_twice_distinct_ids demo.empty demo.one demo.two demo.createReq _ _ rfl rfl⟩

/-- Response identifiers on the quiet document store, every handler having its calls
served back to back: when `CreateBlog`, `ReadBlog` or `UpdateBlog` succeeds, the id of the
response parses to an ObjectID that is a key of the store after the operation; when
`DeleteBlog` succeeds, the blog id of the response parses to an ObjectID that was a key
before the operation and is not a key after it.  The store shared with other clients is
not covered. -/
theorem quiet_response_ids_are_store_keys (st : Store) :
    (∀ (req : CreateBlogRequest) (resp : CreateBlogResponse) (st' : Store),
      CreateBlog adapter st req = (.ok resp, st') →
      ∃ oid, ObjectIDFromHex (Blog.GetId resp.Blog) = some oid ∧ (st'.docs oid).isSome) ∧
    (∀ (req : ReadBlogRequest) (resp : ReadBlogResponse) (st' : Store),
      ReadBlog adapter st req = (.ok resp, st') →
      ∃ oid, ObjectIDFromHex (Blog.GetId resp.Blog) = some oid ∧ (st'.docs oid).isSome) ∧
    (∀ (req : UpdateBlogRequest) (resp : UpdateBlogResponse) (st' : Store),
      UpdateBlog adapter st req = (.ok resp, st') →
      ∃ oid, ObjectIDFromHex (Blog.GetId resp.Blog) = some oid ∧ (st'.docs oid).isSome) ∧
    (∀ (req : DeleteBlogRequest) (resp : DeleteBlogResponse) (st' : Store),
      DeleteBlog adapter st req = (.ok resp, st') →
      ∃ oid, ObjectIDFromHex resp.BlogId = some oid ∧ (st.docs oid).isSome ∧
        st'.docs oid = none) := by
  refine ⟨?_, ?_, ?_, ?_⟩
  · intro req resp st' h
    obtain ⟨_, hr, hs⟩ := CreateBlog_adapter_ok h
    subst hr hs
    exact ⟨st.fresh 0, ObjectIDFromHex_Hex _, by simp [afterInsert]⟩
  · intro req resp st' h
    cases hp : ObjectIDFromHex req.BlogId with
    | none => simp [ReadBlog, hp] at h
    | some oid =>
      rw [ReadBlog_adapter st hp] at h
      cases hd : st.docs oid with
      | none => rw [hd] at h; simp at h
      | some d =>
        rw [hd] at h
        simp only [Prod.mk.injEq, Except.ok.injEq] at h
        obtain ⟨hr, hs⟩ := h
        subst hr hs
        exact ⟨oid, ObjectIDFromHex_Hex _, by simp [hd]⟩
  · intro req resp st' h
    cases hp : ObjectIDFromHex (Blog.GetId req.Blog) with
    | none => simp [UpdateBlog, hp] at h
    | some oid =>
      rw [UpdateBlog_adapter st req oid hp] at h
      cases hd : st.docs oid with
      | none => rw [hd] at h; simp at h
      | some d =>
        rw [hd] at h
        simp only [Prod.mk.injEq, Except.ok.injEq] at h
        obtain ⟨hr, hs⟩ := h
        subst hr hs
        exact ⟨oid, ObjectIDFromHex_Hex _, by simp⟩
  · intro req resp st' h
    cases hp : ObjectIDFromHex req.BlogId with
    | none => simp [DeleteBlog, hp] at h
    | some oid =>
      rw [DeleteBlog_adapter st hp] at h
      cases hd : st.docs oid with
      | none => rw [hd] at h; simp at h
      | some d =>
        rw [hd] at h
        simp only [Prod.mk.injEq, Except.ok.injEq] at h
        obtain ⟨hr, hs⟩ := h
        subst hr hs
        exact ⟨oid, ObjectIDFromHex_Hex _, by simp [hd], by simp⟩

/-- The quiet store on the example: a create, a read, an update and a delete. -/
theorem quiet_response_ids_example :
    (∃ oid, ObjectIDFromHex "5f1a2b3c4d5e6f7a8b9c0d00" = some oid ∧
      (demo.one.docs oid).isSome) ∧
    (∃ oid, ObjectIDFromHex "5f1a2b3c4d5e6f7a8b9c0d00" = some oid ∧
      (demo.one.docs oid).isSome) ∧
    (∃ oid, ObjectIDFromHex "5f1a2b3c4d5e6f7a8b9c0d00" = some oid ∧
      (demo.updated.docs oid).isSome) ∧
    (∃ oid, ObjectIDFromHex "5f1a2b3c4d5e6f7a8b9c0d00" = some oid ∧
      (demo.one.docs oid).isSome ∧ demo.deleted.docs oid = none) :=
  ⟨(quiet_response_ids_are_store_keys demo.empty).1 demo.createReq
      { Blog := some { Id := "5f1a2b3c4d5e6f7a8b9c0d00", AuthodId := "Apurv",
                       Title := "My First Blog", Content := "My first blog contents" } }
      demo.one rfl,
   (quiet_response_ids_are_store_keys demo.one).2.1 { BlogId := "5F1A2B3C4D5E6F7A8B9C0D00" }
      { Blog := some { Id := "5f1a2b3c4d5e6f7a8b9c0d00", AuthodId := "Apurv",
                       Title := "My First Blog", Content := "My first blog contents" } }
      demo.one rfl,
   (quiet_response_ids_are_store_keys demo.one).2.2.1 demo.updateReq
      { Blog := some { Id := "5f1a2b3c4d5e6f7a8b9c0d00", AuthodId := "Apurv Sawant",
                       Title := "My Second Blog", Content := "My second Blog content" } }
      demo.updated rfl,
   (quiet_response_ids_are_store_keys demo.one).2.2.2 { BlogId := "5f1a2b3c4d5e6f7a8b9c0d00" }
      { BlogId := "5f1a2b3c4d5e6f7a8b9c0d00" } demo.deleted rfl⟩

/-- C10 (identifier string is stable). For every id string `X` a successful `CreateBlog`
returns on the document store: `X` parses as an ObjectID whose rendering is `X` again, so
`ReadBlog` and `UpdateBlog` on `X` never fail with `InvalidArgument`, in any store state;
and every successful `ReadBlog` of `X`, `UpdateBlog` with id `X` and `DeleteBlog` of `X`,
in any store state, returns an id string equal to `X`.  `DeleteBlog` on `X`, whose parse
failure would be `Internal`, never fails with `Internal` on this store. -/
theorem created_id_is_stable (st st' : Store) (req : CreateBlogRequest)
    (resp : CreateBlogResponse) (h : CreateBlog adapter st req = (.ok resp, st')) :
    ∃ (X : String) (oid : ObjectID),
      Blog.GetId resp.Blog = X ∧ resp.Blog ≠ none ∧
      ObjectIDFromHex X = some oid ∧ oid.Hex = X ∧
      (∀ t : Store, (ReadBlog adapter t { BlogId := X }).1 ≠ .error Code.InvalidArgument) ∧
      (∀ (t : Store) (a ti c : String),
        (UpdateBlog adapter t { Blog := some { Id := X, AuthodId := a, Title := ti,
                                               Content := c } }).1 ≠
          .error Code.InvalidArgument) ∧
      (∀ t : Store, (DeleteBlog adapter t { BlogId := X }).1 ≠ .error Code.Internal) ∧
      (∀ (t t' : Store) (r : ReadBlogResponse),
        ReadBlog adapter t { BlogId := X } = (.ok r, t') → Blog.GetId r.Blog = X) ∧
      (∀ (t t' : Store) (a ti c : String) (r : UpdateBlogResponse),
        UpdateBlog adapter t { Blog := some { Id := X, AuthodId := a, Title := ti,
                                              Content := c } } = (.ok r, t') →
        Blog.GetId r.Blog = X) ∧
      (∀ (t t' : Store) (r : DeleteBlogResponse),
        DeleteBlog adapter t { BlogId := X } = (.ok r, t') → r.BlogId = X) := by
  obtain ⟨_, hr, hs⟩ := CreateBlog_adapter_ok h
  subst hr hs
  have hp := ObjectIDFromHex_Hex (st.fresh 0)
  refine ⟨(st.fresh 0).Hex, st.fresh 0, rfl, by simp, hp, rfl, ?_, ?_, ?_, ?_, ?_, ?_⟩
  · intro t
    rw [ReadBlog_adapter t hp]
    cases t.docs (st.fresh 0) <;> simp
  · intro t a ti c
    rw [UpdateBlog_adapter t _ (st.fresh 0) (by simpa [Blog.GetId] using hp)]
    cases t.docs (st.fresh 0) <;> simp
  · intro t
    rw [DeleteBlog_adapter t hp]
    cases t.docs (st.fresh 0) <;> simp
  · intro t t' r hr
    rw [ReadBlog_adapter t hp] at hr
    cases hd : t.docs (st.fresh 0) with
    | none => rw [hd] at hr; simp at hr
    | some d =>
      rw [hd] at hr
      simp only [Prod.mk.injEq, Except.ok.injEq] at hr
      rw [← hr.1]; rfl
  · intro t t' a ti c r hr
    rw [UpdateBlog_adapter t _ (st.fresh 0) (by simpa [Blog.GetId] using hp)] at hr
    cases hd : t.docs (st.fresh 0) with
    | none => rw [hd] at hr; simp at hr
    | some d =>
      rw [hd] at hr
      simp only [Prod.mk.injEq, Except.ok.injEq] at hr
      rw [← hr.1]; rfl
  · intro t t' r hr
    rw [DeleteBlog_adapter t hp] at hr
    cases hd : t.docs (st.fresh 0) with
    | none => rw [hd] at hr; simp at hr
    | some d =>
      rw [hd] at hr
      simp only [Prod.mk.injEq, Except.ok.injEq] at hr
      rw [← hr.1]

/-- C10 on the example: the id returned by the create of the client. -/
theorem created_id_is_stable_witness :
    CreateBlog adapter demo.empty demo.createReq =
        (.ok { Blog := some { Id := "5f1a2b3c4d5e6f7a8b9c0d00", AuthodId := "Apurv",
                              Title := "My First Blog",
                              Content := "My first blog contents" } }, demo.one) ∧
    ∃ (X : String) (oid : ObjectID),
      "5f1a2b3c4d5e6f7a8b9c0d00" = X ∧
      (some { Id := "5f1a2b3c4d5e6f7a8b9c0d00", AuthodId := "Apurv", Title := "My First Blog",
              Content := "My first blog contents" } : Option Blog) ≠ none ∧
      ObjectIDFromHex X = some oid ∧ oid.Hex = X ∧
      (∀ t : Store, (ReadBlog adapter t { BlogId := X }).1 ≠ .error Code.InvalidArgument) ∧
      (∀ (t : Store) (a ti c : String),
        (UpdateBlog adapter t { Blog := some { Id := X, AuthodId := a, Title := ti,
                                               Content := c } }).1 ≠
          .error Code.InvalidArgument) ∧
      (∀ t : Store, (DeleteBlog adapter t { BlogId := X }).1 ≠ .error Code.Internal) ∧
      (∀ (t t' : Store) (r : ReadBlogResponse),
        ReadBlog adapter t { BlogId := X } = (.ok r, t') → Blog.GetId r.Blog = X) ∧
      (∀ (t t' : Store) (a ti c : String) (r : UpdateBlogResponse),
        UpdateBlog adapter t { Blog := some { Id := X, AuthodId := a, Title := ti,
                                              Content := c } } = (.ok r, t') →
        Blog.GetId r.Blog = X) ∧
      (∀ (t t' : Store) (r : DeleteBlogResponse),
        DeleteBlog adapter t { BlogId := X } = (.ok r, t') → r.BlogId = X) :=
  ⟨rfl, created_id_is_stable demo.empty demo.one demo.createReq _ rfl⟩

/-- C9 at the failing input: the store holds the blog created first and another client
deletes it between the find and the replace of `UpdateBlog`.  `UpdateBlog` succeeds, and the
id of its response parses to no ObjectID that is a key of the store after the operation. -/
theorem update_response_id_is_no_store_key :
    ∃ (resp : UpdateBlogResponse) (st' : Store × List (Event Store)),
      UpdateBlog adapter.live demo.racing demo.updateReq = (.ok resp, st') ∧
      Blog.GetId resp.Blog = "5f1a2b3c4d5e6f7a8b9c0d00" ∧
      ¬ ∃ oid, ObjectIDFromHex (Blog.GetId resp.Blog) = some oid ∧
          (st'.1.docs oid).isSome = true := by
  refine ⟨_, _, rfl, rfl, ?_⟩
  rintro ⟨oid, hp, hk⟩
  have h0 : ObjectIDFromHex "5f1a2b3c4d5e6f7a8b9c0d00" = some (demo.ids 0) := rfl
  have hoid : demo.ids 0 = oid := Option.some.inj (h0.symm.trans hp)
  subst hoid
  have hgone :
      ((UpdateBlog adapter.live demo.racing demo.updateReq).2.1.docs (demo.ids 0)).isSome =
        false := rfl
  exact Bool.noConfusion (hk.symm.trans hgone)

end server
